import Mathlib

/-!
Verification development for the trading-bot core: a shallow embedding of
the indicator engine, signal generator, risk manager, position store,
candle aggregator and backtesting simulator, together with theorems about
the behaviour of these functions. Machine floats are modelled by rationals,
pandas NaN by Option, Python dict lookups (with their truthiness checks)
by explicit Option matching, and the SQL-backed stores by in-memory lists.
-/

namespace Trading

/-- Python truthiness of an optional number: None and 0.0 are falsy. -/
def truthyQ : Option ℚ → Bool
  | none => false
  | some x => x != 0

/-- Python int() conversion: truncation toward zero. -/
def pyInt (q : ℚ) : ℤ := if 0 ≤ q then ⌊q⌋ else ⌈q⌉

/-- The trailing window of width w ending at index i (pandas rolling window). -/
def windowEnd (w : ℕ) (xs : List ℚ) (i : ℕ) : List ℚ :=
  (xs.take (i + 1)).drop (i + 1 - w)

/-- pandas Series.rolling(w).max(): NaN (none) until w values are available. -/
def rollingMax (w : ℕ) (xs : List ℚ) : List (Option ℚ) :=
  (List.range xs.length).map fun i =>
    if i + 1 < w then none else (windowEnd w xs i).max?

/-- pandas Series.rolling(w).min(). -/
def rollingMin (w : ℕ) (xs : List ℚ) : List (Option ℚ) :=
  (List.range xs.length).map fun i =>
    if i + 1 < w then none else (windowEnd w xs i).min?

/-- pandas Series.rolling(w).mean(). -/
def rollingMean (w : ℕ) (xs : List ℚ) : List (Option ℚ) :=
  (List.range xs.length).map fun i =>
    if i + 1 < w then none else some ((windowEnd w xs i).sum / w)

/-- pandas Series.shift(n) for n > 0: entry i becomes entry i - n, NaN below n. -/
def shiftForward (n : ℕ) (xs : List (Option ℚ)) : List (Option ℚ) :=
  (List.range xs.length).map fun i =>
    if i < n then none else (xs.get? (i - n)).getD none

/-- pandas Series.shift(-n): entry i becomes entry i + n, NaN at the tail. -/
def shiftBack (n : ℕ) (xs : List ℚ) : List (Option ℚ) :=
  (List.range xs.length).map fun i => xs.get? (i + n)

/-- Pointwise midpoint of two NaN-carrying series. -/
def avgOpt : Option ℚ → Option ℚ → Option ℚ
  | some a, some b => some ((a + b) / 2)
  | _, _ => none

/-- Exponential moving average continuation: e_i = a*x_i + (1-a)*e_(i-1). -/
def emaFrom (a : ℚ) (prev : ℚ) : List ℚ → List ℚ
  | [] => []
  | x :: rest =>
    let e := a * x + (1 - a) * prev
    e :: emaFrom a e rest

/-- pandas Series.ewm(span, adjust=False).mean(): seeded with the first value. -/
def emaList (span : ℕ) : List ℚ → List ℚ
  | [] => []
  | x :: rest => x :: emaFrom (2 / (span + 1)) x rest

/-- One OHLCV candle row of the indicator DataFrame (timestamps in minutes). -/
structure Candle where
  timestamp : ℕ
  open_price : ℚ
  high : ℚ
  low : ℚ
  close : ℚ
  volume : ℚ
deriving DecidableEq, Repr

/-- Result dict of TechnicalAnalyzer.calculate_ichimoku (None-able fields as Option). -/
structure Ichimoku where
  tenkan_sen : Option ℚ
  kijun_sen : Option ℚ
  senkou_span_a : Option ℚ
  senkou_span_b : Option ℚ
  chikou_span : Option ℚ
  cloud_top : Option ℚ
  cloud_bottom : Option ℚ
  price_above_cloud : Bool
  price_below_cloud : Bool
  cloud_color : String
  current_price : ℚ
deriving DecidableEq, Repr

/-- Backward scan of calculate_ichimoku: the most recent index where both
shifted leading spans are defined (a left fold keeps the last such pair). -/
def lastBothSome (xs ys : List (Option ℚ)) : Option (ℚ × ℚ) :=
  (List.zip xs ys).foldl
    (fun acc p =>
      match p with
      | (some a, some b) => some (a, b)
      | _ => acc)
    none

/-- TechnicalAnalyzer.calculate_ichimoku: empty dict (none) below 52 candles. -/
def calculate_ichimoku (df : List Candle) : Option Ichimoku :=
  if df.length < 52 then none
  else
    let high := df.map Candle.high
    let low := df.map Candle.low
    let close := df.map Candle.close
    let tenkan_sen := List.zipWith avgOpt (rollingMax 9 high) (rollingMin 9 low)
    let kijun_sen := List.zipWith avgOpt (rollingMax 26 high) (rollingMin 26 low)
    let senkou_span_a := shiftForward 26 (List.zipWith avgOpt tenkan_sen kijun_sen)
    let senkou_span_b :=
      shiftForward 26 (List.zipWith avgOpt (rollingMax 52 high) (rollingMin 52 low))
    let chikou_span := shiftBack 26 close
    let current_price := close.getLastD 0
    let lastA := senkou_span_a.getLastD none
    let lastB := senkou_span_b.getLastD none
    -- if either latest shifted span is NaN, fall back to the backward scan
    let cur : Option ℚ × Option ℚ :=
      match lastA, lastB with
      | some a, some b => (some a, some b)
      | _, _ =>
        match lastBothSome senkou_span_a senkou_span_b with
        | some (a, b) => (some a, some b)
        | none => (lastA, lastB)
    let cloud_top : Option ℚ :=
      match cur with
      | (some a, some b) => if a != 0 && b != 0 then some (max a b) else none
      | _ => none
    let cloud_bottom : Option ℚ :=
      match cur with
      | (some a, some b) => if a != 0 && b != 0 then some (min a b) else none
      | _ => none
    let price_above_cloud :=
      match cloud_top with
      | some t => t != 0 && decide (current_price > t)
      | none => false
    let price_below_cloud :=
      match cloud_bottom with
      | some b => b != 0 && decide (current_price < b)
      | none => false
    let cloud_color :=
      match cur with
      | (some a, some b) => if a != 0 && b != 0 && decide (a > b) then "green" else "red"
      | _ => "red"
    some
      { tenkan_sen := tenkan_sen.getLastD none
        kijun_sen := kijun_sen.getLastD none
        senkou_span_a := if truthyQ cur.1 then cur.1 else none
        senkou_span_b := if truthyQ cur.2 then cur.2 else none
        chikou_span := chikou_span.getLastD none
        cloud_top := cloud_top
        cloud_bottom := cloud_bottom
        price_above_cloud := price_above_cloud
        price_below_cloud := price_below_cloud
        cloud_color := cloud_color
        current_price := current_price }

/-- Result dict of TechnicalAnalyzer.calculate_macd. EMAs of NaN-free closes
are NaN-free, so the value fields are plain rationals. -/
structure Macd where
  macd_line : ℚ
  signal_line : ℚ
  histogram : ℚ
  histogram_rising : Bool
  macd_above_signal : Bool
deriving DecidableEq, Repr

/-- TechnicalAnalyzer.calculate_macd: empty dict (none) below slow+signal candles. -/
def calculate_macd (fast slow signal : ℕ) (df : List Candle) : Option Macd :=
  if df.length < slow + signal then none
  else
    let close := df.map Candle.close
    let macd_line := List.zipWith (· - ·) (emaList fast close) (emaList slow close)
    let signal_line := emaList signal macd_line
    let histogram := List.zipWith (· - ·) macd_line signal_line
    let macd_val := macd_line.getLastD 0
    let signal_val := signal_line.getLastD 0
    let hist_val := histogram.getLastD 0
    let histogram_rising :=
      if histogram.length > 1 then
        decide (hist_val > histogram.getD (histogram.length - 2) 0)
      else false
    some
      { macd_line := macd_val
        signal_line := signal_val
        histogram := hist_val
        histogram_rising := histogram_rising
        macd_above_signal := decide (macd_val > signal_val) }

/-- Result dict of TechnicalAnalyzer.calculate_volume_indicator. -/
structure VolumeInd where
  current_volume : ℚ
  volume_average : ℚ
  volume_above_average : Bool
deriving DecidableEq, Repr

/-- TechnicalAnalyzer.calculate_volume_indicator: empty dict below period candles. -/
def calculate_volume_indicator (period : ℕ) (df : List Candle) : Option VolumeInd :=
  if df.length < period then none
  else
    let volume := df.map Candle.volume
    let volume_ma := rollingMean period volume
    let current_volume := volume.getLastD 0
    let volume_avg := (volume_ma.getLastD none).getD 0
    some
      { current_volume := current_volume
        volume_average := volume_avg
        volume_above_average := decide (current_volume > volume_avg) }

/-- The indicator snapshot dict returned by TechnicalAnalyzer.get_indicators:
three independently computed components, each possibly empty. -/
structure Indicators where
  ichimoku : Option Ichimoku
  macd : Option Macd
  volume : Option VolumeInd
deriving DecidableEq, Repr

/-- TechnicalAnalyzer.get_indicators with the default periods (12, 26, 9, 20). -/
def get_indicators (df : List Candle) : Indicators :=
  { ichimoku := calculate_ichimoku df
    macd := calculate_macd 12 26 9 df
    volume := calculate_volume_indicator 20 df }

/-! ### Dict-style access into an indicator snapshot

SignalGenerator reads the snapshot through dict .get calls; an empty
component dict yields the per-key default (None, False, or the empty
string). -/

def Indicators.get_price_above_cloud (s : Indicators) : Bool :=
  match s.ichimoku with
  | some i => i.price_above_cloud
  | none => false

def Indicators.get_price_below_cloud (s : Indicators) : Bool :=
  match s.ichimoku with
  | some i => i.price_below_cloud
  | none => false

def Indicators.get_tenkan_sen (s : Indicators) : Option ℚ :=
  s.ichimoku.bind Ichimoku.tenkan_sen

def Indicators.get_kijun_sen (s : Indicators) : Option ℚ :=
  s.ichimoku.bind Ichimoku.kijun_sen

def Indicators.get_cloud_color (s : Indicators) : String :=
  match s.ichimoku with
  | some i => i.cloud_color
  | none => ""

def Indicators.get_current_price (s : Indicators) : Option ℚ :=
  s.ichimoku.map Ichimoku.current_price

def Indicators.get_macd_above_signal (s : Indicators) : Bool :=
  match s.macd with
  | some m => m.macd_above_signal
  | none => false

def Indicators.get_histogram (s : Indicators) : Option ℚ :=
  s.macd.map Macd.histogram

def Indicators.get_histogram_rising (s : Indicators) : Bool :=
  match s.macd with
  | some m => m.histogram_rising
  | none => false

/-! ### SignalGenerator -/

/-- Entry condition 1: price above the Ichimoku cloud. -/
def entry_cond_price_above_cloud (s : Indicators) : Bool :=
  s.get_price_above_cloud

/-- Entry condition 2: Tenkan-sen above Kijun-sen (both truthy). -/
def entry_cond_tenkan_above_kijun (s : Indicators) : Bool :=
  match s.get_tenkan_sen, s.get_kijun_sen with
  | some t, some k => t != 0 && k != 0 && decide (t > k)
  | _, _ => false

/-- Entry condition 3: cloud colour green. -/
def entry_cond_cloud_green (s : Indicators) : Bool :=
  s.get_cloud_color == "green"

/-- Entry condition 4: MACD line above signal line. -/
def entry_cond_macd_above_signal (s : Indicators) : Bool :=
  s.get_macd_above_signal

/-- Entry condition 5: histogram truthy, positive and rising. -/
def entry_cond_histogram_rising (s : Indicators) : Bool :=
  match s.get_histogram with
  | some h => h != 0 && decide (h > 0) && s.get_histogram_rising
  | none => false

/-- The conditions_met list built by SignalGenerator.check_entry_conditions. -/
def conditions_met (s : Indicators) : List String :=
  (if entry_cond_price_above_cloud s then ["Price above cloud"] else []) ++
  (if entry_cond_tenkan_above_kijun s then ["Tenkan-sen > Kijun-sen"] else []) ++
  (if entry_cond_cloud_green s then ["Cloud color green"] else []) ++
  (if entry_cond_macd_above_signal s then ["MACD > Signal"] else []) ++
  (if entry_cond_histogram_rising s then ["MACD histogram rising"] else [])

/-- SignalGenerator.check_entry_conditions; the second component abbreviates
the reason string to the strength label on success. -/
def check_entry_conditions (s : Indicators) : Bool × String :=
  let n := (conditions_met s).length
  if n ≥ 2 then
    (true, if n ≥ 4 then "Strong" else if n ≥ 3 then "Moderate" else "Weak")
  else (false, "Insufficient")

/-- The position_data dict passed to SignalGenerator.check_exit_conditions. -/
structure PositionData where
  stop_loss : ℚ
  take_profit : ℚ
  entry_price : ℚ
deriving DecidableEq, Repr

/-- SignalGenerator.check_exit_conditions. A zero entry price makes the
Python P&L division raise; the broad handler turns that into (False, None). -/
def check_exit_conditions (s : Indicators) (pd : PositionData) : Bool × Option String :=
  match s.get_current_price with
  | none => (false, none)
  | some cp =>
    if cp == 0 then (false, none)
    else if pd.entry_price == 0 then (false, none)
    else
      let pnl_percent := (cp - pd.entry_price) / pd.entry_price * 100
      if pd.take_profit != 0 && decide (cp ≥ pd.take_profit) then (true, some "TAKE_PROFIT")
      else if pd.stop_loss != 0 && decide (cp ≤ pd.stop_loss) then (true, some "STOP_LOSS")
      else if decide (pnl_percent < 0) then
        let histogram_threshold := -(|pd.entry_price| * (1 / 1000))
        let macd_fires :=
          !s.get_macd_above_signal &&
            (match s.get_histogram with
             | some h => h != 0 && decide (h < 0) && decide (h < histogram_threshold)
             | none => false)
        if macd_fires then (true, some "MACD_REVERSAL")
        else if s.get_price_below_cloud && decide (pnl_percent ≤ -(1 / 2)) then
          (true, some "PRICE_BELOW_CLOUD")
        else (false, none)
      else (false, none)

/-- Reason of SignalGenerator.generate_exit_signal, none when no exit fires. -/
def generate_exit_signal_reason (s : Indicators) (pd : PositionData) : Option String :=
  match check_exit_conditions s pd with
  | (true, r) => r
  | (false, _) => none

/-! ### RiskManager -/

/-- The parameters RiskManager reads at construction: config.MAX_POSITIONS,
the hardcoded 18 percent daily drawdown limit and 3-loss circuit breaker. -/
structure RiskParams where
  max_positions : ℕ
  max_daily_drawdown_percent : ℚ
  circuit_breaker_losses : ℕ
deriving DecidableEq, Repr

/-- RiskManager.check_position_limit (the warning log elided). -/
def check_position_limit (rp : RiskParams) (current_active_positions : ℕ) : Bool :=
  if current_active_positions ≥ rp.max_positions then false else true

/-- RiskManager.check_circuit_breaker; the Performance row for today is
modelled as an optional consecutive-loss counter (none when no row exists). -/
def check_circuit_breaker (rp : RiskParams) (perf : Option ℕ) : Bool :=
  match perf with
  | some consecutive_losses =>
    if consecutive_losses ≥ rp.circuit_breaker_losses then false else true
  | none => true

/-- RiskManager.check_daily_drawdown_limit. -/
def check_daily_drawdown_limit (rp : RiskParams) (portfolio_pnl initial_capital : ℚ) : Bool :=
  if initial_capital ≤ 0 then true
  else
    let drawdown_percent := |portfolio_pnl / initial_capital| * 100
    if drawdown_percent ≥ rp.max_daily_drawdown_percent then false else true

/-- RiskManager.should_trade: position cap, then circuit breaker, then (only
for a negative portfolio P&L) the daily drawdown limit. -/
def should_trade (rp : RiskParams) (perf : Option ℕ) (current_active_positions : ℕ)
    (portfolio_pnl initial_capital : ℚ) : Bool :=
  if !check_position_limit rp current_active_positions then false
  else if !check_circuit_breaker rp perf then false
  else if portfolio_pnl < 0 then
    if !check_daily_drawdown_limit rp portfolio_pnl initial_capital then false else true
  else true

/-! ### PositionManager -/

inductive PositionStatus where
  | UNMONITORED
  | WATCHING
  | ACTIVE
  | CLOSED_PROFIT
  | CLOSED_LOSS
  | CLOSED_REVERSAL
  | CLOSED_EOD
deriving DecidableEq, Repr

/-- A row of the positions table. -/
structure Position where
  id : ℕ
  stock_symbol : String
  entry_price : ℚ
  quantity : ℤ
  stop_loss : ℚ
  take_profit : ℚ
  status : PositionStatus
  exit_price : Option ℚ
  exit_time : Option ℕ
  pnl : ℚ
  exit_reason : Option String
deriving DecidableEq, Repr

/-- The status_map of PositionManager.close_position with its .get default. -/
def exitStatusMap (reason : String) : PositionStatus :=
  if reason == "TAKE_PROFIT" then .CLOSED_PROFIT
  else if reason == "STOP_LOSS" then .CLOSED_LOSS
  else if reason == "PRICE_BELOW_CLOUD" then .CLOSED_REVERSAL
  else if reason == "MACD_CROSSED_BELOW_SIGNAL" then .CLOSED_REVERSAL
  else if reason == "MACD_REVERSAL" then .CLOSED_REVERSAL
  else if reason == "EOD" then .CLOSED_EOD
  else .CLOSED_LOSS

/-- The field updates close_position applies to the row it found. -/
def closePositionRecord (now : ℕ) (exit_price : ℚ) (reason : String) (p : Position) :
    Position :=
  { p with
    exit_price := some exit_price
    exit_time := some now
    pnl := (exit_price - p.entry_price) * p.quantity
    exit_reason := some reason
    status := exitStatusMap reason }

/-- PositionManager.close_position over an in-memory positions table: the row
is looked up by id only, with no check of its current status. A zero entry
price makes the pnl_percent division raise, which the handler turns into a
rollback (no row is changed and None is returned). -/
def close_position (store : List Position) (pid : ℕ) (now : ℕ) (exit_price : ℚ)
    (reason : String) : Option Position × List Position :=
  match store.find? (fun p => p.id == pid) with
  | none => (none, store)
  | some p =>
    if p.entry_price == 0 then (none, store)
    else
      (some (closePositionRecord now exit_price reason p),
       store.map fun q => if q.id == pid then closePositionRecord now exit_price reason q else q)

/-- PositionManager.calculate_stop_loss with the default 2 percent and no
tick-size rounding (kite_client is None in the simulator). -/
def calculate_stop_loss (entry_price : ℚ) : ℚ :=
  entry_price * (1 - 2 / 100)

/-- PositionManager.calculate_take_profit with the default 4 percent. -/
def calculate_take_profit (entry_price : ℚ) : ℚ :=
  entry_price * (1 + 4 / 100)

/-! ### WebSocketManager tick-to-candle aggregation -/

/-- One buffered tick (the ohlc sub-dict is never read by the aggregation). -/
structure Tick where
  timestamp : ℕ
  last_price : Option ℚ
  volume : ℚ
deriving DecidableEq, Repr

/-- The candle dict emitted by WebSocketManager._close_candle. -/
structure WsCandle where
  instrument_token : ℕ
  timestamp : ℕ
  open_price : ℚ
  high : ℚ
  low : ℚ
  close : ℚ
  volume : ℚ
deriving DecidableEq, Repr

/-- WebSocketManager._close_candle on the buffered ticks of one instrument:
ticks with a falsy last_price are dropped; with no ticks, or none with a
truthy price, the buffer is cleared and nothing is emitted (in particular
the candle-close callback is not invoked). -/
def close_candle (instrument_token : ℕ) (last_candle_time : ℕ) (ticks : List Tick) :
    Option WsCandle :=
  if ticks.isEmpty then none
  else
    let prices := ticks.filterMap fun t =>
      match t.last_price with
      | some p => if p != 0 then some p else none
      | none => none
    let volumes := (ticks.map Tick.volume).filter fun v => v != 0
    match prices with
    | [] => none
    | p :: ps =>
      some
        { instrument_token := instrument_token
          timestamp := last_candle_time
          open_price := p
          high := ps.foldl max p
          low := ps.foldl min p
          close := (p :: ps).getLastD p
          volume := volumes.sum }

/-- Modelled from the spec: price of the first buffered tick. -/
def first_tick_price (ticks : List Tick) : Option ℚ :=
  ticks.head?.bind Tick.last_price

/-- Modelled from the spec: price of the last buffered tick. -/
def last_tick_price (ticks : List Tick) : Option ℚ :=
  ticks.getLast?.bind Tick.last_price

/-- Modelled from the spec: maximum buffered tick price. -/
def max_tick_price (ticks : List Tick) : Option ℚ :=
  (ticks.filterMap Tick.last_price).max?

/-- Modelled from the spec: minimum buffered tick price. -/
def min_tick_price (ticks : List Tick) : Option ℚ :=
  (ticks.filterMap Tick.last_price).min?

/-- Modelled from the spec: sum of the buffered tick volumes. -/
def total_tick_volume (ticks : List Tick) : ℚ :=
  (ticks.map Tick.volume).sum

/-! ### TradingSimulator

The session clock is modelled in minutes: 9:15 is 555, 3:25 pm is 925, and
the loop advances in steps of 5 minutes. Candle timestamps of the loaded
history use the same scale (earlier days are smaller numbers). -/

/-- A position dict of TradingSimulator (status is the string the code uses). -/
structure SimPosition where
  stock : String
  entry_price : ℚ
  quantity : ℤ
  stop_loss : ℚ
  take_profit : ℚ
  entry_time : ℕ
  status : String
  exit_price : Option ℚ
  exit_time : Option ℕ
  pnl : Option ℚ
  pnl_percent : Option ℚ
  exit_reason : Option String
deriving DecidableEq, Repr

/-- A trade-ledger row of TradingSimulator. -/
structure SimTrade where
  timestamp : ℕ
  stock : String
  action : String
  price : ℚ
  quantity : ℤ
  stop_loss : ℚ
  take_profit : ℚ
  pnl : Option ℚ
  pnl_percent : Option ℚ
  signal : Option String
  exit_reason : Option String
deriving DecidableEq, Repr

/-- The mutable simulation state. -/
structure SimState where
  positions : List SimPosition
  trades : List SimTrade
  total_signals : ℕ
  total_entries : ℕ
  total_exits : ℕ
deriving DecidableEq, Repr

/-- The inputs a simulation run reads: constructor arguments, the historical
candles served by the data source, and the persisted Performance row for
today (the consecutive-loss counter the circuit breaker queries from the
database shared with the live path). -/
structure SimEnv where
  stocks : List String
  initial_capital : ℚ
  history : List (String × List Candle)
  perf_consecutive_losses : Option ℕ
deriving DecidableEq

/-- Historical candles loaded for a stock (empty when the fetch failed). -/
def getHist (env : SimEnv) (stock : String) : List Candle :=
  match env.history.find? (fun h => h.1 == stock) with
  | some h => h.2
  | none => []

/-- TradingSimulator._get_indicators_for_stock: candles at or before the
current time, None below 52 candles. -/
def get_indicators_for_stock (env : SimEnv) (stock : String) (t : ℕ) :
    Option Indicators :=
  let relevant := (getHist env stock).filter fun c => decide (c.timestamp ≤ t)
  if relevant.length < 52 then none else some (get_indicators relevant)

/-- The exit reason TradingSimulator._check_exit computes: stop-loss is
tested before take-profit, then the technical exit signal is consulted. -/
def sim_exit_reason (s : Indicators) (pd : PositionData) : Option String :=
  match s.get_current_price with
  | none => none
  | some cp =>
    if cp == 0 then none
    else if decide (cp ≤ pd.stop_loss) then some "STOP_LOSS"
    else if decide (cp ≥ pd.take_profit) then some "TAKE_PROFIT"
    else generate_exit_signal_reason s pd

/-- TradingSimulator._check_exit for one position: on a triggered reason the
position dict is closed in place and a SELL row is appended. A zero entry
price would make the Python P&L division raise inside the broad handler,
leaving the position untouched. -/
def sim_check_exit (t : ℕ) (s : Indicators) (p : SimPosition) :
    SimPosition × Option SimTrade :=
  match s.get_current_price with
  | none => (p, none)
  | some cp =>
    if cp == 0 then (p, none)
    else
      match sim_exit_reason s ⟨p.stop_loss, p.take_profit, p.entry_price⟩ with
      | none => (p, none)
      | some reason =>
        if p.entry_price == 0 then (p, none)
        else
          let pnl := (cp - p.entry_price) * p.quantity
          let pnl_percent := (cp - p.entry_price) / p.entry_price * 100
          ({ p with
              exit_price := some cp
              exit_time := some t
              pnl := some pnl
              pnl_percent := some pnl_percent
              exit_reason := some reason
              status := "CLOSED" },
           some
             { timestamp := t
               stock := p.stock
               action := "SELL"
               price := cp
               quantity := p.quantity
               stop_loss := p.stop_loss
               take_profit := p.take_profit
               pnl := some pnl
               pnl_percent := some pnl_percent
               signal := none
               exit_reason := some reason })

/-- Per-position effect of the _process_exits_at_time loop. -/
def sim_exit_step (t : ℕ) (s : Indicators) (stock : String) (p : SimPosition) :
    SimPosition :=
  if p.stock == stock && p.status == "ACTIVE" then (sim_check_exit t s p).1 else p

/-- The SELL row the _process_exits_at_time loop appends for one position. -/
def sim_exit_trade (t : ℕ) (s : Indicators) (stock : String) (p : SimPosition) :
    Option SimTrade :=
  if p.stock == stock && p.status == "ACTIVE" then (sim_check_exit t s p).2 else none

/-- TradingSimulator._process_exits_at_time: indicators are computed once,
then every ACTIVE position of the stock gets the exit check in list order. -/
def process_exits_at_time (env : SimEnv) (t : ℕ) (stock : String) (st : SimState) :
    SimState :=
  match get_indicators_for_stock env stock t with
  | none => st
  | some s =>
    let new_trades := st.positions.filterMap (sim_exit_trade t s stock)
    { st with
      positions := st.positions.map (sim_exit_step t s stock)
      trades := st.trades ++ new_trades
      total_exits := st.total_exits + new_trades.length }

/-- TradingSimulator._check_entry: per-stock cap of 6, then the risk gate
(called with portfolio_pnl = 0.0), then the entry signal, price, sizing with
capital split over max(stock count, 9) slots, and the position/trade append. -/
def sim_check_entry (env : SimEnv) (rp : RiskParams) (t : ℕ) (stock : String)
    (s : Indicators) (st : SimState) : SimState :=
  let active_for_stock :=
    st.positions.filter fun p => p.stock == stock && p.status == "ACTIVE"
  if active_for_stock.length ≥ 6 then st
  else
    let active := st.positions.filter fun p => p.status == "ACTIVE"
    if !should_trade rp env.perf_consecutive_losses active.length 0 env.initial_capital then
      st
    else
      match check_entry_conditions s with
      | (false, _) => st
      | (true, strength) =>
        let st1 := { st with total_signals := st.total_signals + 1 }
        match s.get_current_price with
        | none => st1
        | some cp =>
          if cp == 0 then st1
          else
            let max_stocks : ℚ := max (env.stocks.length : ℚ) 9
            let position_size := env.initial_capital / max_stocks
            let quantity := pyInt (position_size / cp)
            if quantity ≤ 0 then st1
            else
              let sl := calculate_stop_loss cp
              let tp := calculate_take_profit cp
              { st1 with
                positions := st1.positions ++
                  [{ stock := stock
                     entry_price := cp
                     quantity := quantity
                     stop_loss := sl
                     take_profit := tp
                     entry_time := t
                     status := "ACTIVE"
                     exit_price := none
                     exit_time := none
                     pnl := none
                     pnl_percent := none
                     exit_reason := none }]
                trades := st1.trades ++
                  [{ timestamp := t
                     stock := stock
                     action := "BUY"
                     price := cp
                     quantity := quantity
                     stop_loss := sl
                     take_profit := tp
                     pnl := none
                     pnl_percent := none
                     signal := some strength
                     exit_reason := none }]
                total_entries := st1.total_entries + 1 }

/-- TradingSimulator._process_entries_at_time. -/
def process_entries_at_time (env : SimEnv) (rp : RiskParams) (t : ℕ) (stock : String)
    (st : SimState) : SimState :=
  match get_indicators_for_stock env stock t with
  | none => st
  | some s => sim_check_entry env rp t stock s st

/-- One iteration of _simulate_time_progression: exits for all stocks first,
then entries for all stocks. -/
def sim_step (env : SimEnv) (rp : RiskParams) (t : ℕ) (st : SimState) : SimState :=
  let st1 := env.stocks.foldl (fun acc stock => process_exits_at_time env t stock acc) st
  env.stocks.foldl (fun acc stock => process_entries_at_time env rp t stock acc) st1

/-- The simulated clock: 9:15 to 15:25 in 5-minute steps (75 iterations). -/
def simTimes : List ℕ := List.range' 555 75 5

/-- The session cutoff (15:25 as minutes). -/
def simEndTime : ℕ := 925

def initSimState : SimState :=
  { positions := [], trades := [], total_signals := 0, total_entries := 0, total_exits := 0 }

/-- Close price of the latest candle of a list (Python max by timestamp,
which keeps the first of equal maxima). -/
def last_candle_close : List Candle → Option ℚ
  | [] => none
  | c :: rest =>
    some ((rest.foldl (fun acc x => if decide (x.timestamp > acc.timestamp) then x else acc) c).close)

/-- Exit price used by _close_all_positions: close of the last candle at or
before the cutoff, falling back to the entry price when none exists. -/
def sim_eod_exit_price (env : SimEnv) (p : SimPosition) : ℚ :=
  let valid := (getHist env p.stock).filter fun c => decide (c.timestamp ≤ simEndTime)
  match last_candle_close valid with
  | some c => c
  | none => p.entry_price

/-- Effect of _close_all_positions on one position dict. -/
def sim_close_position_eod (env : SimEnv) (p : SimPosition) : SimPosition :=
  if p.status == "ACTIVE" then
    let exit_price := sim_eod_exit_price env p
    { p with
      exit_price := some exit_price
      exit_time := some simEndTime
      pnl := some ((exit_price - p.entry_price) * p.quantity)
      pnl_percent := some ((exit_price - p.entry_price) / p.entry_price * 100)
      exit_reason := some "EOD"
      status := "CLOSED" }
  else p

/-- The SELL row _close_all_positions appends for one still-open position. -/
def sim_eod_trade (env : SimEnv) (p : SimPosition) : SimTrade :=
  let exit_price := sim_eod_exit_price env p
  { timestamp := simEndTime
    stock := p.stock
    action := "SELL"
    price := exit_price
    quantity := p.quantity
    stop_loss := p.stop_loss
    take_profit := p.take_profit
    pnl := some ((exit_price - p.entry_price) * p.quantity)
    pnl_percent := some ((exit_price - p.entry_price) / p.entry_price * 100)
    signal := none
    exit_reason := some "EOD" }

/-- TradingSimulator._close_all_positions. -/
def close_all_positions (env : SimEnv) (st : SimState) : SimState :=
  let act := st.positions.filter fun p => p.status == "ACTIVE"
  { st with
    positions := st.positions.map (sim_close_position_eod env)
    trades := st.trades ++ act.map (sim_eod_trade env)
    total_exits := st.total_exits + act.length }

/-- The time-progression loop of run_simulation. -/
def sim_session (env : SimEnv) (rp : RiskParams) : SimState :=
  simTimes.foldl (fun st t => sim_step env rp t st) initSimState

/-- TradingSimulator.run_simulation: _initialize_data fails (empty results)
when any stock has no historical data; otherwise the time loop runs and all
remaining positions are closed at end of day. -/
def sim_run (env : SimEnv) (rp : RiskParams) : SimState :=
  if env.stocks.all (fun stock => !(getHist env stock).isEmpty) then
    close_all_positions env (sim_session env rp)
  else initSimState

/-! ### ExecutionEngine entry gate (live path) -/

/-- ExecutionEngine._check_entry_signals followed by _execute_entry over the
positions table: per-stock cap of 6 ACTIVE rows, the risk gate called with
portfolio_pnl = 0.0, the entry signal, sizing from POSITION_SIZE_PERCENT,
and a new ACTIVE row only when the broker accepted the buy order. -/
def engine_check_entry_signals (rp : RiskParams) (perf : Option ℕ)
    (initial_capital position_size_percent : ℚ) (db : List Position)
    (stock : String) (s : Indicators) (next_id : ℕ) (buy_order_ok : Bool) :
    List Position :=
  let for_stock := db.filter fun p =>
    p.stock_symbol == stock && p.status == PositionStatus.ACTIVE
  if for_stock.length ≥ 6 then db
  else
    let active := db.filter fun p => p.status == PositionStatus.ACTIVE
    if !should_trade rp perf active.length 0 initial_capital then db
    else
      match check_entry_conditions s with
      | (false, _) => db
      | (true, _) =>
        match s.get_current_price with
        | none => db
        | some cp =>
          if cp == 0 then db
          else
            let position_size := initial_capital * (position_size_percent / 100)
            let quantity := pyInt (position_size / cp)
            if quantity ≤ 0 then db
            else if buy_order_ok then
              db ++
                [{ id := next_id
                   stock_symbol := stock
                   entry_price := cp
                   quantity := quantity
                   stop_loss := calculate_stop_loss cp
                   take_profit := calculate_take_profit cp
                   status := .ACTIVE
                   exit_price := none
                   exit_time := none
                   pnl := 0
                   exit_reason := none }]
            else db

/-! ### Specification-side definitions and concrete data for the claims -/

/-- Number of true entry conditions among the five. -/
def entry_conditions_count (s : Indicators) : ℕ :=
  (entry_cond_price_above_cloud s).toNat + (entry_cond_tenkan_above_kijun s).toNat +
    (entry_cond_cloud_green s).toNat + (entry_cond_macd_above_signal s).toNat +
      (entry_cond_histogram_rising s).toNat

/-- The exit rule exactly as the specification words it, for positions with
positive entry, stop and target prices: take-profit first, then stop-loss,
then (only on a negative unrealized P&L) the MACD reversal with its noise
threshold of 0.1 percent of entry, else the below-cloud exit at a loss of
at least 0.5 percent. Written from the claim text for comparison with the
code functions. -/
def claim_exit_spec (s : Indicators) (pd : PositionData) : Option String :=
  match s.get_current_price with
  | none => none
  | some cp =>
    if cp ≥ pd.take_profit then some "TAKE_PROFIT"
    else if cp ≤ pd.stop_loss then some "STOP_LOSS"
    else
      let pnl_percent := (cp - pd.entry_price) / pd.entry_price * 100
      if pnl_percent < 0 then
        if !s.get_macd_above_signal &&
            (match s.get_histogram with
             | some h => decide (h < 0) && decide (h < -(pd.entry_price / 1000))
             | none => false) then
          some "MACD_REVERSAL"
        else if s.get_price_below_cloud && decide (pnl_percent ≤ -(1 / 2)) then
          some "PRICE_BELOW_CLOUD"
        else none
      else none

/-- ACTIVE positions of the simulator ledger. -/
def countActive (ps : List SimPosition) : ℕ :=
  (ps.filter fun p => p.status == "ACTIVE").length

/-- ACTIVE positions of the simulator ledger for one stock. -/
def countActiveFor (stock : String) (ps : List SimPosition) : ℕ :=
  (ps.filter fun p => p.stock == stock && p.status == "ACTIVE").length

/-- ACTIVE rows of the live positions table. -/
def dbActive (db : List Position) : ℕ :=
  (db.filter fun p => p.status == PositionStatus.ACTIVE).length

/-- ACTIVE rows of the live positions table for one stock. -/
def dbActiveFor (stock : String) (db : List Position) : ℕ :=
  (db.filter fun p => p.stock_symbol == stock && p.status == PositionStatus.ACTIVE).length

/-- Both caps of the position model hold: at most 6 ACTIVE positions per
stock and at most max_positions ACTIVE positions in total. -/
def simCapsOk (rp : RiskParams) (ps : List SimPosition) : Prop :=
  (∀ stock, countActiveFor stock ps ≤ 6) ∧ countActive ps ≤ rp.max_positions

/-- Both caps on the live positions table. -/
def dbCapsOk (rp : RiskParams) (db : List Position) : Prop :=
  (∀ stock, dbActiveFor stock db ≤ 6) ∧ dbActive db ≤ rp.max_positions

/-- A closed simulator position with its exit fields populated. -/
def posClosedOk (p : SimPosition) : Prop :=
  p.status = "CLOSED" ∧ p.exit_price.isSome = true ∧ p.exit_time.isSome = true ∧
    p.exit_reason.isSome = true

/-- Run invariant: every ledger position is either still ACTIVE on a stock
that has candles at or before the cutoff, or closed with populated fields. -/
def posRunOk (env : SimEnv) (p : SimPosition) : Prop :=
  (p.status = "ACTIVE" ∧
    ((getHist env p.stock).filter fun c => decide (c.timestamp ≤ simEndTime)) ≠ []) ∨
  posClosedOk p

/-- Historical candles of the deterministic test scenario: a long flat
stretch before the session and a final bump at the cutoff candle. -/
def detCandles : List Candle :=
  ((List.range 51).map fun i => ⟨i, 100, 100, 100, 100, 1000⟩) ++
    [⟨921, 100, 100, 100, 100, 1000⟩, ⟨922, 100, 100, 100, 100, 1000⟩,
     ⟨923, 100, 100, 100, 100, 1000⟩, ⟨924, 100, 100, 100, 100, 1000⟩,
     ⟨925, 113, 113, 113, 113, 1000⟩]

/-- Simulation inputs with no Performance row for today. -/
def e1det : SimEnv :=
  { stocks := ["RELIANCE"]
    initial_capital := 100000
    history := [("RELIANCE", detCandles)]
    perf_consecutive_losses := none }

/-- The same date, stocks, capital and historical data, but a persisted
Performance row with 3 consecutive losses left behind by an earlier run. -/
def e2det : SimEnv := { e1det with perf_consecutive_losses := some 3 }

/-- The risk parameters of the default configuration. -/
def rpDet : RiskParams := ⟨9, 18, 3⟩

/-- A 40-candle window: enough for MACD and volume, not for Ichimoku. -/
def df40 : List Candle := List.replicate 40 ⟨0, 1, 1, 1, 1, 1⟩

/-- Snapshot meeting exactly the two MACD entry conditions. -/
def c2snap : Indicators :=
  { ichimoku := none
    macd := some
      { macd_line := 1, signal_line := 0, histogram := 1, histogram_rising := true,
        macd_above_signal := true }
    volume := none }

/-- An empty Ichimoku-only snapshot carrying just a current price. -/
def priceSnap (cp : ℚ) : Indicators :=
  { ichimoku := some
      { tenkan_sen := none, kijun_sen := none, senkou_span_a := none,
        senkou_span_b := none, chikou_span := none, cloud_top := none,
        cloud_bottom := none, price_above_cloud := false, price_below_cloud := false,
        cloud_color := "red", current_price := cp }
    macd := none
    volume := none }

/-- A position whose stop-loss sits above its take-profit: both exit
thresholds hold at once at a close of 105. -/
def c1pd : PositionData := { stop_loss := 110, take_profit := 100, entry_price := 100 }

/-- A position already closed in profit. -/
def c6pos : Position :=
  { id := 1, stock_symbol := "X", entry_price := 100, quantity := 10, stop_loss := 98,
    take_profit := 104, status := .CLOSED_PROFIT, exit_price := some 104,
    exit_time := some 600, pnl := 40, exit_reason := some "TAKE_PROFIT" }

/-- Three buffered ticks, one with zero traded volume. -/
def wticks : List Tick := [⟨1, some 100, 10⟩, ⟨2, some 105, 0⟩, ⟨3, some 99, 5⟩]

/-- A position still ACTIVE at the cutoff of the deterministic scenario. -/
def simC9pos : SimPosition :=
  { stock := "RELIANCE", entry_price := 113, quantity := 98, stop_loss := 110,
    take_profit := 117, entry_time := 925, status := "ACTIVE", exit_price := none,
    exit_time := none, pnl := none, pnl_percent := none, exit_reason := none }

/-! ### Theorems -/

attribute [local semireducible] Rat.add Rat.mul Rat.inv Rat.sub

theorem conditions_met_length (s : Indicators) :
    (conditions_met s).length = entry_conditions_count s := by
  unfold conditions_met entry_conditions_count
  cases h1 : entry_cond_price_above_cloud s <;>
    cases h2 : entry_cond_tenkan_above_kijun s <;>
      cases h3 : entry_cond_cloud_green s <;>
        cases h4 : entry_cond_macd_above_signal s <;>
          cases h5 : entry_cond_histogram_rising s <;> simp

/-- C2: the entry evaluation reports a signal present iff at least 2 of the
5 entry conditions hold, absent for counts 0 or 1, and labels the strength
Weak at exactly 2, Moderate at exactly 3 and Strong at 4 or more. -/
theorem claim_C2 (s : Indicators) :
    ((check_entry_conditions s).1 = true ↔ 2 ≤ entry_conditions_count s) ∧
    (entry_conditions_count s = 2 → check_entry_conditions s = (true, "Weak")) ∧
    (entry_conditions_count s = 3 → check_entry_conditions s = (true, "Moderate")) ∧
    (4 ≤ entry_conditions_count s → check_entry_conditions s = (true, "Strong")) := by
  have h := conditions_met_length s
  unfold check_entry_conditions
  rw [h]
  refine ⟨?_, ?_, ?_, ?_⟩ <;> intros <;> simp only [ge_iff_le] <;> split_ifs <;>
    first
      | (simp_all; omega)
      | simp_all

/-- C2 witness: a snapshot meeting exactly the two MACD conditions fires a
weak entry signal. -/
theorem claim_C2_witness :
    entry_conditions_count c2snap = 2 ∧ check_entry_conditions c2snap = (true, "Weak") :=
  ⟨by decide, (claim_C2 c2snap).2.1 (by decide)⟩

/-- C3: should_trade is true iff the active count is strictly below the
position cap, the consecutive-loss counter is strictly below 3 and it is
not the case that the portfolio P&L is negative with magnitude at least 18
percent of capital; for a non-negative P&L the drawdown check is never
evaluated, so the result does not depend on the capital argument. -/
theorem should_trade_blocked_cap (rp : RiskParams) (perf : Option ℕ) (n : ℕ) (p c : ℚ)
    (h : rp.max_positions ≤ n) : should_trade rp perf n p c = false := by
  unfold should_trade check_position_limit
  rw [if_pos (show n ≥ rp.max_positions by omega)]
  simp

theorem should_trade_blocked_breaker (rp : RiskParams) (l n : ℕ) (p c : ℚ)
    (h : rp.circuit_breaker_losses ≤ l) : should_trade rp (some l) n p c = false := by
  unfold should_trade check_circuit_breaker
  have hb : (if l ≥ rp.circuit_breaker_losses then false else true) = false := by
    rw [if_pos (by omega)]
  by_cases h1 : !check_position_limit rp n
  · rw [if_pos h1]
  · rw [if_neg h1]
    simp [hb]

theorem should_trade_blocked_drawdown (m : ℕ) (perf : Option ℕ) (n : ℕ) (p c : ℚ)
    (hp : p < 0) (hdd : 18 ≤ |p| / c * 100) :
    should_trade ⟨m, 18, 3⟩ perf n p c = false := by
  have hc : 0 < c := by
    by_contra hc
    push_neg at hc
    have h0 : |p| / c ≤ 0 := div_nonpos_iff.mpr (Or.inl ⟨abs_nonneg p, hc⟩)
    nlinarith
  unfold should_trade
  have hcdd : check_daily_drawdown_limit ⟨m, 18, 3⟩ p c = false := by
    unfold check_daily_drawdown_limit
    dsimp only
    rw [if_neg (by linarith : ¬ c ≤ 0)]
    rw [if_pos (by rw [abs_div, abs_of_pos hc]; linarith)]
  by_cases h1 : !check_position_limit ⟨m, 18, 3⟩ n
  · rw [if_pos h1]
  · rw [if_neg h1]
    by_cases h2 : !check_circuit_breaker ⟨m, 18, 3⟩ perf
    · rw [if_pos h2]
    · rw [if_neg h2, if_pos hp, hcdd]
      simp

/-- C3: should_trade is true iff the active count is strictly below the
position cap, the consecutive-loss counter is strictly below 3 and it is
not the case that the portfolio P&L is negative with magnitude at least 18
percent of capital; for a non-negative P&L the drawdown check is never
evaluated, so the result does not depend on the capital argument. -/
theorem claim_C3 (m : ℕ) (perf : Option ℕ) (n : ℕ) (p c : ℚ) :
    (should_trade ⟨m, 18, 3⟩ perf n p c = true ↔
      n < m ∧ perf.getD 0 < 3 ∧ ¬(p < 0 ∧ 18 ≤ |p| / c * 100)) ∧
    (0 ≤ p → ∀ c₂ : ℚ, should_trade ⟨m, 18, 3⟩ perf n p c =
      should_trade ⟨m, 18, 3⟩ perf n p c₂) := by
  constructor
  · constructor
    · intro h
      refine ⟨?_, ?_, ?_⟩
      · by_contra hn
        push_neg at hn
        rw [should_trade_blocked_cap ⟨m, 18, 3⟩ perf n p c hn] at h
        exact absurd h (by simp)
      · rcases perf with _ | l
        · simp only [Option.getD]
          omega
        · simp only [Option.getD]
          by_contra hl
          push_neg at hl
          rw [should_trade_blocked_breaker ⟨m, 18, 3⟩ l n p c hl] at h
          exact absurd h (by simp)
      · rintro ⟨hp, hdd⟩
        rw [should_trade_blocked_drawdown m perf n p c hp hdd] at h
        exact absurd h (by simp)
    · rintro ⟨hn, hl, hdd⟩
      unfold should_trade
      have h1 : check_position_limit ⟨m, 18, 3⟩ n = true := by
        unfold check_position_limit
        dsimp only
        rw [if_neg (by omega)]
      have h2 : check_circuit_breaker ⟨m, 18, 3⟩ perf = true := by
        unfold check_circuit_breaker
        rcases perf with _ | l
        · rfl
        · simp only [Option.getD] at hl
          dsimp only
          rw [if_neg (by omega)]
      rw [h1, h2]
      simp only [Bool.not_true, Bool.false_eq_true, if_false]
      by_cases hp : p < 0
      · rw [if_pos hp]
        have hcdd : check_daily_drawdown_limit ⟨m, 18, 3⟩ p c = true := by
          unfold check_daily_drawdown_limit
          dsimp only
          by_cases hc : c ≤ 0
          · rw [if_pos hc]
          · rw [if_neg hc]
            push_neg at hc
            rw [if_neg ?_]
            rw [abs_div, abs_of_pos hc]
            intro hge
            exact hdd ⟨hp, by linarith⟩
        rw [hcdd]
        simp
      · rw [if_neg hp]
  · intro hp c₂
    unfold should_trade
    have h0 : ¬(p < 0) := not_lt.mpr hp
    simp [h0]

/-- C3 witness: with 2 active positions of 9 allowed, 1 consecutive loss
and a small negative P&L, trading is allowed. -/
theorem claim_C3_witness :
    should_trade ⟨9, 18, 3⟩ (some 1) 2 (-5) 1000 = true :=
  (claim_C3 9 (some 1) 2 (-5) 1000).1.mpr
    ⟨by norm_num, by norm_num, by norm_num⟩

/-- C5: below 52 candles the Ichimoku component is empty, below 35 the MACD
component is empty, below 20 the volume component is empty, and each
component of the snapshot is computed independently of the others (a window
long enough for one component yields that component even when another is
empty). -/
theorem claim_C5 (df : List Candle) :
    (df.length < 52 → calculate_ichimoku df = none) ∧
    (df.length < 35 → calculate_macd 12 26 9 df = none) ∧
    (df.length < 20 → calculate_volume_indicator 20 df = none) ∧
    (52 ≤ df.length → (get_indicators df).ichimoku.isSome = true) ∧
    (35 ≤ df.length → (get_indicators df).macd.isSome = true) ∧
    (20 ≤ df.length → (get_indicators df).volume.isSome = true) := by
  refine ⟨fun h => ?_, fun h => ?_, fun h => ?_, fun h => ?_, fun h => ?_, fun h => ?_⟩
  · unfold calculate_ichimoku
    rw [if_pos (show df.length < 52 by omega)]
  · unfold calculate_macd
    rw [if_pos (show df.length < 26 + 9 by omega)]
  · unfold calculate_volume_indicator
    rw [if_pos (show df.length < 20 by omega)]
  · show (calculate_ichimoku df).isSome = true
    unfold calculate_ichimoku
    rw [if_neg (show ¬ df.length < 52 by omega)]
    rfl
  · show (calculate_macd 12 26 9 df).isSome = true
    unfold calculate_macd
    rw [if_neg (show ¬ df.length < 26 + 9 by omega)]
    rfl
  · show (calculate_volume_indicator 20 df).isSome = true
    unfold calculate_volume_indicator
    rw [if_neg (show ¬ df.length < 20 by omega)]
    rfl

/-- C5 witness: a 40-candle window yields an empty Ichimoku component while
the MACD and volume components are still computed. -/
theorem claim_C5_witness :
    (get_indicators df40).ichimoku = none ∧
    (get_indicators df40).macd.isSome = true ∧
    (get_indicators df40).volume.isSome = true :=
  ⟨(claim_C5 df40).1 (by decide), (claim_C5 df40).2.2.2.2.1 (by decide),
    (claim_C5 df40).2.2.2.2.2 (by decide)⟩

theorem exit_histogram_guard (thr : ℚ) (h : ℚ) :
    (h != 0 && decide (h < 0) && decide (h < thr)) = (decide (h < 0) && decide (h < thr)) := by
  by_cases h0 : h < 0
  · simp [h0, ne_of_lt h0]
  · simp [h0]

/-- C1 (amended): for positive entry, stop and target prices and a defined
positive close, the signal-generator exit check realises exactly the
claimed priority order (formalised by claim_exit_spec), and the simulator
exit check agrees with it whenever stop-loss < take-profit, which holds for
every position the simulator creates; the two differ only when both
thresholds are satisfied at once, where the simulator reports STOP_LOSS. -/
theorem claim_C1 (s : Indicators) (pd : PositionData) (cp : ℚ)
    (hcp : s.get_current_price = some cp) (hcp0 : 0 < cp)
    (he : 0 < pd.entry_price) (hsl : 0 < pd.stop_loss) (htp : 0 < pd.take_profit) :
    (check_exit_conditions s pd).2 = claim_exit_spec s pd ∧
    (check_exit_conditions s pd).1 = (claim_exit_spec s pd).isSome ∧
    (pd.stop_loss < pd.take_profit → sim_exit_reason s pd = claim_exit_spec s pd) := by
  have hcp' : cp ≠ 0 := ne_of_gt hcp0
  have he' : pd.entry_price ≠ 0 := ne_of_gt he
  have key : check_exit_conditions s pd =
      ((claim_exit_spec s pd).isSome, claim_exit_spec s pd) := by
    unfold check_exit_conditions claim_exit_spec
    rw [hcp]
    dsimp only
    rw [if_neg (by simp [hcp'] : ¬ (cp == 0) = true)]
    rw [if_neg (by simp [he'] : ¬ (pd.entry_price == 0) = true)]
    have hthr : -(|pd.entry_price| * (1 / 1000)) = -(pd.entry_price / 1000) := by
      rw [abs_of_pos he]; ring
    simp only [hthr, exit_histogram_guard]
    simp only [show (pd.take_profit != 0 && decide (cp ≥ pd.take_profit)) =
        decide (cp ≥ pd.take_profit) by simp [bne_iff_ne, ne_of_gt htp],
      show (pd.stop_loss != 0 && decide (cp ≤ pd.stop_loss)) =
        decide (cp ≤ pd.stop_loss) by simp [bne_iff_ne, ne_of_gt hsl]]
    simp only [decide_eq_true_eq]
    split_ifs <;> rfl
  refine ⟨by rw [key], by rw [key], fun hlt => ?_⟩
  unfold sim_exit_reason
  rw [hcp]
  dsimp only
  rw [if_neg (by simp [hcp'] : ¬ (cp == 0) = true)]
  simp only [decide_eq_true_eq]
  by_cases h2 : cp ≤ pd.stop_loss
  · rw [if_pos h2]
    unfold claim_exit_spec
    rw [hcp]
    dsimp only
    rw [if_neg (by intro h1; linarith : ¬ cp ≥ pd.take_profit), if_pos h2]
  · rw [if_neg h2]
    by_cases h1 : cp ≥ pd.take_profit
    · rw [if_pos h1]
      unfold claim_exit_spec
      rw [hcp]
      dsimp only
      rw [if_pos h1]
    · rw [if_neg h1]
      unfold generate_exit_signal_reason
      rw [key]
      cases hs : claim_exit_spec s pd <;> simp

/-- C1 counterexample: at a close of 105 on a position whose stop-loss (110)
sits above its take-profit (100), the close is at or above the take-profit,
yet the simulator exit check reports STOP_LOSS, not TAKE_PROFIT. -/
theorem claim_C1_counterexample :
    (0 : ℚ) < c1pd.entry_price ∧ (0 : ℚ) < c1pd.stop_loss ∧ (0 : ℚ) < c1pd.take_profit ∧
    (priceSnap 105).get_current_price = some 105 ∧ (0 : ℚ) < 105 ∧
    c1pd.take_profit ≤ 105 ∧
    sim_exit_reason (priceSnap 105) c1pd = some "STOP_LOSS" ∧
    sim_exit_reason (priceSnap 105) c1pd ≠ some "TAKE_PROFIT" := by
  refine ⟨by decide, by decide, by decide, rfl, by decide, by decide, by decide, by decide⟩

/-- C1 witness: at a close of 99 on a regular position (entry 100, stop 98,
target 104), both the signal-generator and the simulator exit checks equal
the claimed priority evaluation. -/
theorem claim_C1_witness :
    (check_exit_conditions (priceSnap 99) ⟨98, 104, 100⟩).2 =
      claim_exit_spec (priceSnap 99) ⟨98, 104, 100⟩ ∧
    sim_exit_reason (priceSnap 99) ⟨98, 104, 100⟩ =
      claim_exit_spec (priceSnap 99) ⟨98, 104, 100⟩ :=
  ⟨(claim_C1 (priceSnap 99) ⟨98, 104, 100⟩ 99 rfl (by decide) (by decide) (by decide)
      (by decide)).1,
   (claim_C1 (priceSnap 99) ⟨98, 104, 100⟩ 99 rfl (by decide) (by decide) (by decide)
      (by decide)).2.2 (by decide)⟩

theorem filterMap_price_guard (ticks : List Tick)
    (hp : ∀ t ∈ ticks, ∃ p, t.last_price = some p ∧ p ≠ 0) :
    (ticks.filterMap fun t =>
      match t.last_price with
      | some p => if p != 0 then some p else none
      | none => none) = ticks.filterMap Tick.last_price := by
  induction ticks with
  | nil => rfl
  | cons t rest ih =>
    obtain ⟨p, hps, hp0⟩ := hp t (List.mem_cons_self t rest)
    have ih' := ih fun u hu => hp u (List.mem_cons_of_mem t hu)
    rw [List.filterMap_cons, List.filterMap_cons, hps]
    dsimp only
    rw [if_pos (show (p != 0) = true by simpa using hp0), ih']

theorem filterMap_getLast_total (ticks : List Tick)
    (hp : ∀ t ∈ ticks, (t.last_price).isSome = true) :
    (ticks.filterMap Tick.last_price).getLast? = ticks.getLast?.bind Tick.last_price := by
  induction ticks with
  | nil => rfl
  | cons t rest ih =>
    obtain ⟨p, hps⟩ := Option.isSome_iff_exists.mp (hp t (List.mem_cons_self t rest))
    cases rest with
    | nil => simp [List.filterMap_cons, hps]
    | cons u rest2 =>
      obtain ⟨q, hq⟩ := Option.isSome_iff_exists.mp (hp u (by simp))
      have ih' := ih fun v hv => hp v (List.mem_cons_of_mem t hv)
      rw [List.filterMap_cons, hps, List.getLast?_cons_cons, ← ih']
      cases hfm : List.filterMap Tick.last_price (u :: rest2) with
      | nil =>
        rw [List.filterMap_cons, hq] at hfm
        exact absurd hfm (by simp)
      | cons x xs => rw [List.getLast?_cons_cons]

theorem sum_filter_nonzero (l : List ℚ) : (l.filter fun v => v != 0).sum = l.sum := by
  induction l with
  | nil => rfl
  | cons v rest ih =>
    by_cases hv : v = 0
    · simp [List.filter_cons, hv, ih]
    · simp [List.filter_cons, hv, ih]

theorem cons_getLastD_eq_getLast? (l : List ℚ) (a : ℚ) :
    some ((a :: l).getLastD a) = (a :: l).getLast? := by
  rw [List.getLastD_eq_getLast?]
  cases h : (a :: l).getLast? with
  | none => simp at h
  | some x => rfl

/-- C4: an interval with no buffered ticks emits no candle (and hence never
invokes the candle-close callback); for a non-empty buffer of ticks with
defined non-zero prices, exactly one candle is emitted with open the first
tick price, close the last, high the maximum, low the minimum and volume
the sum of the tick volumes. -/
theorem claim_C4 (tok lct : ℕ) :
    close_candle tok lct [] = none ∧
    ∀ ticks : List Tick, ticks ≠ [] →
      (∀ t ∈ ticks, ∃ p, t.last_price = some p ∧ p ≠ 0) →
      ∃ c, close_candle tok lct ticks = some c ∧
        some c.open_price = first_tick_price ticks ∧
        some c.close = last_tick_price ticks ∧
        some c.high = max_tick_price ticks ∧
        some c.low = min_tick_price ticks ∧
        c.volume = total_tick_volume ticks ∧
        c.timestamp = lct := by
  refine ⟨rfl, ?_⟩
  intro ticks hne hp
  unfold close_candle
  rw [if_neg (by simpa using hne)]
  dsimp only
  rw [filterMap_price_guard ticks hp]
  cases hticks : ticks with
  | nil => exact absurd hticks hne
  | cons t rest =>
    subst hticks
    obtain ⟨p, hps, hp0⟩ := hp t (List.mem_cons_self t rest)
    rw [List.filterMap_cons, hps]
    dsimp only
    refine ⟨_, rfl, ?_, ?_, ?_, ?_, ?_, rfl⟩
    · simp [first_tick_price, hps]
    · have htot : ∀ u ∈ t :: rest, (u.last_price).isSome = true := fun u hu => by
        obtain ⟨q, hq, _⟩ := hp u hu
        simp [hq]
      have hfl := filterMap_getLast_total (t :: rest) htot
      rw [List.filterMap_cons, hps] at hfl
      unfold last_tick_price
      rw [← hfl]
      exact cons_getLastD_eq_getLast? _ p
    · unfold max_tick_price
      rw [List.filterMap_cons, hps]
      rfl
    · unfold min_tick_price
      rw [List.filterMap_cons, hps]
      rfl
    · exact sum_filter_nonzero _

/-- C4 witness: three concrete buffered ticks are folded into the expected
OHLCV candle, and an empty buffer emits nothing. -/
theorem claim_C4_witness :
    close_candle 7 555 [] = none ∧
    ∃ c, close_candle 7 555 wticks = some c ∧
      some c.open_price = first_tick_price wticks ∧
      some c.close = last_tick_price wticks ∧
      some c.high = max_tick_price wticks ∧
      some c.low = min_tick_price wticks ∧
      c.volume = total_tick_volume wticks ∧
      c.timestamp = 555 :=
  ⟨(claim_C4 7 555).1,
   (claim_C4 7 555).2 wticks (by decide)
     (by
      intro t ht
      simp only [wticks, List.mem_cons, List.not_mem_nil, or_false] at ht
      rcases ht with h | h | h <;> subst h <;>
        first
          | exact ⟨100, rfl, by norm_num⟩
          | exact ⟨105, rfl, by norm_num⟩
          | exact ⟨99, rfl, by norm_num⟩)⟩

/-- C6 counterexample: close_position invoked on a position that is already
CLOSED_PROFIT is not a no-op — it overwrites the exit price and remaps the
terminal status to CLOSED_LOSS. -/
theorem claim_C6_counterexample :
    c6pos.status ≠ PositionStatus.ACTIVE ∧
    (close_position [c6pos] 1 700 50 "STOP_LOSS").2 ≠ [c6pos] ∧
    (close_position [c6pos] 1 700 50 "STOP_LOSS").2.map Position.status =
      [PositionStatus.CLOSED_LOSS] ∧
    (close_position [c6pos] 1 700 50 "STOP_LOSS").2.map Position.exit_price =
      [some 50] :=
  ⟨by decide, by decide, by decide, by decide⟩

/-- C6 (amended): close_position on an existing id sets the realized P&L to
(exit − entry) × quantity and maps the exit reason through the status table
(with the legacy MACD_CROSSED_BELOW_SIGNAL also going to CLOSED_REVERSAL
and every unmapped reason to CLOSED_LOSS); a missing id leaves the store
unchanged; the operation is not guarded by the current status, so a
non-ACTIVE position is overwritten rather than left unchanged. -/
theorem claim_C6 :
    (∀ (store : List Position) (pid now : ℕ) (price : ℚ) (reason : String) (p : Position),
      store.find? (fun q => q.id == pid) = some p → p.entry_price ≠ 0 →
      (close_position store pid now price reason).1 =
          some (closePositionRecord now price reason p) ∧
        (closePositionRecord now price reason p).pnl = (price - p.entry_price) * p.quantity ∧
        (closePositionRecord now price reason p).status = exitStatusMap reason ∧
        (close_position store pid now price reason).2 =
          store.map fun q =>
            if q.id == pid then closePositionRecord now price reason q else q) ∧
    (∀ (store : List Position) (pid now : ℕ) (price : ℚ) (reason : String),
      store.find? (fun q => q.id == pid) = none →
      close_position store pid now price reason = (none, store)) ∧
    exitStatusMap "TAKE_PROFIT" = PositionStatus.CLOSED_PROFIT ∧
    exitStatusMap "STOP_LOSS" = PositionStatus.CLOSED_LOSS ∧
    exitStatusMap "MACD_REVERSAL" = PositionStatus.CLOSED_REVERSAL ∧
    exitStatusMap "PRICE_BELOW_CLOUD" = PositionStatus.CLOSED_REVERSAL ∧
    exitStatusMap "MACD_CROSSED_BELOW_SIGNAL" = PositionStatus.CLOSED_REVERSAL ∧
    exitStatusMap "EOD" = PositionStatus.CLOSED_EOD ∧
    (∀ reason, reason ∉ ["TAKE_PROFIT", "STOP_LOSS", "PRICE_BELOW_CLOUD",
        "MACD_CROSSED_BELOW_SIGNAL", "MACD_REVERSAL", "EOD"] →
      exitStatusMap reason = PositionStatus.CLOSED_LOSS) := by
  refine ⟨?_, ?_, rfl, rfl, rfl, rfl, rfl, rfl, ?_⟩
  · intro store pid now price reason p hfind hentry
    unfold close_position
    rw [hfind]
    dsimp only
    rw [if_neg (by simpa using hentry)]
    exact ⟨rfl, rfl, rfl, rfl⟩
  · intro store pid now price reason h
    unfold close_position
    rw [h]
  · intro reason hmem
    simp only [List.mem_cons, List.not_mem_nil, or_false] at hmem
    push_neg at hmem
    obtain ⟨h1, h2, h3, h4, h5, h6⟩ := hmem
    unfold exitStatusMap
    rw [if_neg (by simpa using h1), if_neg (by simpa using h2), if_neg (by simpa using h3),
      if_neg (by simpa using h4), if_neg (by simpa using h5), if_neg (by simpa using h6)]

/-- C6 witness: closing the stored position with reason STOP_LOSS yields the
updated record with its computed P&L and CLOSED_LOSS status. -/
theorem claim_C6_witness :
    (close_position [c6pos] 1 700 50 "STOP_LOSS").1 =
      some (closePositionRecord 700 50 "STOP_LOSS" c6pos) ∧
    (closePositionRecord 700 50 "STOP_LOSS" c6pos).pnl =
      (50 - c6pos.entry_price) * c6pos.quantity ∧
    (closePositionRecord 700 50 "STOP_LOSS" c6pos).status = exitStatusMap "STOP_LOSS" ∧
    (close_position [c6pos] 1 700 50 "STOP_LOSS").2 =
      [c6pos].map fun q =>
        if q.id == 1 then closePositionRecord 700 50 "STOP_LOSS" q else q :=
  claim_C6.1 [c6pos] 1 700 50 "STOP_LOSS" c6pos (by decide) (by decide)

theorem foldl_preserve {α β : Type} (P : β → Prop) (f : β → α → β) (l : List α)
    (h : ∀ a ∈ l, ∀ b, P b → P (f b a)) : ∀ b, P b → P (l.foldl f b) := by
  induction l with
  | nil => exact fun b hb => hb
  | cons a rest ih =>
    intro b hb
    exact ih (fun x hx b' hb' => h x (List.mem_cons_of_mem a hx) b' hb') (f b a)
      (h a (List.mem_cons_self a rest) b hb)

theorem sim_check_exit_cases (t : ℕ) (s : Indicators) (p : SimPosition) :
    (sim_check_exit t s p).1 = p ∨
    ((sim_check_exit t s p).1.stock = p.stock ∧
      (sim_check_exit t s p).1.status = "CLOSED" ∧
      (sim_check_exit t s p).1.exit_price.isSome = true ∧
      (sim_check_exit t s p).1.exit_time.isSome = true ∧
      (sim_check_exit t s p).1.exit_reason.isSome = true) := by
  unfold sim_check_exit
  cases s.get_current_price with
  | none => left; rfl
  | some cp =>
    dsimp only
    split
    · left; rfl
    · split
      · left; rfl
      · split
        · left; rfl
        · right; exact ⟨rfl, rfl, rfl, rfl, rfl⟩

theorem sim_exit_step_cases (t : ℕ) (s : Indicators) (stock : String) (p : SimPosition) :
    sim_exit_step t s stock p = p ∨
    ((sim_exit_step t s stock p).stock = p.stock ∧
      (sim_exit_step t s stock p).status = "CLOSED" ∧
      (sim_exit_step t s stock p).exit_price.isSome = true ∧
      (sim_exit_step t s stock p).exit_time.isSome = true ∧
      (sim_exit_step t s stock p).exit_reason.isSome = true) := by
  unfold sim_exit_step
  by_cases hc : (p.stock == stock && p.status == "ACTIVE") = true
  · rw [if_pos hc]
    exact sim_check_exit_cases t s p
  · rw [if_neg hc]
    left; rfl

theorem sim_close_eod_cases (env : SimEnv) (p : SimPosition) :
    sim_close_position_eod env p = p ∨
    ((sim_close_position_eod env p).stock = p.stock ∧
      (sim_close_position_eod env p).status = "CLOSED" ∧
      (sim_close_position_eod env p).exit_price.isSome = true ∧
      (sim_close_position_eod env p).exit_time.isSome = true ∧
      (sim_close_position_eod env p).exit_reason.isSome = true) := by
  unfold sim_close_position_eod
  by_cases hc : (p.status == "ACTIVE") = true
  · rw [if_pos hc]
    right; exact ⟨rfl, rfl, rfl, rfl, rfl⟩
  · rw [if_neg hc]
    left; rfl

theorem filter_length_map_le (q : SimPosition → Bool) (f : SimPosition → SimPosition)
    (ps : List SimPosition) (h : ∀ p ∈ ps, q (f p) = true → q p = true) :
    ((ps.map f).filter q).length ≤ (ps.filter q).length := by
  induction ps with
  | nil => simp
  | cons p rest ih =>
    have ih' := ih fun u hu => h u (List.mem_cons_of_mem p hu)
    simp only [List.map_cons, List.filter_cons]
    by_cases hq : q (f p) = true
    · rw [if_pos hq, if_pos (h p (List.mem_cons_self p rest) hq)]
      simpa using ih'
    · rw [if_neg hq]
      by_cases hq2 : q p = true
      · rw [if_pos hq2]
        simp only [List.length_cons]
        exact Nat.le_succ_of_le ih'
      · rw [if_neg hq2]
        exact ih'

theorem should_trade_cap_lt (rp : RiskParams) (perf : Option ℕ) (n : ℕ) (p c : ℚ)
    (h : should_trade rp perf n p c = true) : n < rp.max_positions := by
  by_contra hn
  push_neg at hn
  rw [should_trade_blocked_cap rp perf n p c hn] at h
  exact absurd h (by simp)

theorem process_exits_caps (env : SimEnv) (rp : RiskParams) (t : ℕ) (stock : String)
    (st : SimState) (h : simCapsOk rp st.positions) :
    simCapsOk rp (process_exits_at_time env t stock st).positions := by
  unfold process_exits_at_time
  cases hgi : get_indicators_for_stock env stock t with
  | none => exact h
  | some s =>
    dsimp only
    constructor
    · intro stock2
      refine le_trans (filter_length_map_le _ _ _ fun p _ hp => ?_) (h.1 stock2)
      rcases sim_exit_step_cases t s stock p with heq | ⟨hstock, hcl, _, _, _⟩
      · rwa [heq] at hp
      · rw [Bool.and_eq_true] at hp
        rw [hcl] at hp
        exact absurd hp.2 (by decide)
    · refine le_trans (filter_length_map_le _ _ _ fun p _ hp => ?_) h.2
      rcases sim_exit_step_cases t s stock p with heq | ⟨hstock, hcl, _, _, _⟩
      · rwa [heq] at hp
      · rw [hcl] at hp
        exact absurd hp (by decide)

theorem sim_check_entry_caps (env : SimEnv) (rp : RiskParams) (t : ℕ) (stock : String)
    (s : Indicators) (st : SimState) (h : simCapsOk rp st.positions) :
    simCapsOk rp (sim_check_entry env rp t stock s st).positions := by
  unfold sim_check_entry
  by_cases h6 :
      (st.positions.filter fun p => p.stock == stock && p.status == "ACTIVE").length ≥ 6
  · rw [if_pos h6]; exact h
  · rw [if_neg h6]
    by_cases hst : should_trade rp env.perf_consecutive_losses
        (st.positions.filter fun p => p.status == "ACTIVE").length 0 env.initial_capital = true
    · rw [if_neg (by rw [hst]; decide)]
      split
      · exact h
      · dsimp only
        split
        · exact h
        · split
          · exact h
          · split
            · exact h
            · constructor
              · intro stock2
                unfold countActiveFor
                dsimp only
                rw [List.filter_append, List.length_append]
                by_cases hs2 : stock2 = stock
                · rw [hs2]
                  simp only [List.filter_cons, List.filter_nil, beq_self_eq_true,
                    Bool.and_self, Bool.and_true, Bool.true_and]
                  simp
                  omega
                · have hbe : (stock == stock2) = false :=
                    beq_eq_false_iff_ne.mpr fun hx => hs2 hx.symm
                  simp only [List.filter_cons, List.filter_nil, hbe, Bool.false_and]
                  simp
                  have hb2 := h.1 stock2
                  unfold countActiveFor at hb2
                  omega
              · unfold countActive
                dsimp only
                rw [List.filter_append, List.length_append]
                have hlt := should_trade_cap_lt rp env.perf_consecutive_losses _ 0
                  env.initial_capital hst
                simp only [List.filter_cons, List.filter_nil, beq_self_eq_true]
                simp
                have htot := h.2
                unfold countActive at htot
                omega
    · have hst' : should_trade rp env.perf_consecutive_losses
          (st.positions.filter fun p => p.status == "ACTIVE").length 0
          env.initial_capital = false := by
        cases hb : should_trade rp env.perf_consecutive_losses
            (st.positions.filter fun p => p.status == "ACTIVE").length 0 env.initial_capital
        · rfl
        · exact absurd hb hst
      rw [if_pos (by rw [hst']; rfl)]
      exact h

theorem process_entries_caps (env : SimEnv) (rp : RiskParams) (t : ℕ) (stock : String)
    (st : SimState) (h : simCapsOk rp st.positions) :
    simCapsOk rp (process_entries_at_time env rp t stock st).positions := by
  unfold process_entries_at_time
  cases hgi : get_indicators_for_stock env stock t with
  | none => exact h
  | some s => exact sim_check_entry_caps env rp t stock s st h

theorem close_all_caps (env : SimEnv) (rp : RiskParams) (st : SimState)
    (h : simCapsOk rp st.positions) :
    simCapsOk rp (close_all_positions env st).positions := by
  unfold close_all_positions
  dsimp only
  constructor
  · intro stock2
    refine le_trans (filter_length_map_le _ _ _ fun p _ hp => ?_) (h.1 stock2)
    rcases sim_close_eod_cases env p with heq | ⟨hstock, hcl, _, _, _⟩
    · rwa [heq] at hp
    · rw [Bool.and_eq_true] at hp
      rw [hcl] at hp
      exact absurd hp.2 (by decide)
  · refine le_trans (filter_length_map_le _ _ _ fun p _ hp => ?_) h.2
    rcases sim_close_eod_cases env p with heq | ⟨hstock, hcl, _, _, _⟩
    · rwa [heq] at hp
    · rw [hcl] at hp
      exact absurd hp (by decide)

theorem sim_step_caps (env : SimEnv) (rp : RiskParams) (t : ℕ) (st : SimState)
    (h : simCapsOk rp st.positions) : simCapsOk rp (sim_step env rp t st).positions := by
  unfold sim_step
  dsimp only
  apply foldl_preserve (fun st0 => simCapsOk rp st0.positions) _ env.stocks
    (fun stock _ st0 h0 => process_entries_caps env rp t stock st0 h0)
  apply foldl_preserve (fun st0 => simCapsOk rp st0.positions) _ env.stocks
    (fun stock _ st0 h0 => process_exits_caps env rp t stock st0 h0)
  exact h

theorem initSimState_caps (rp : RiskParams) : simCapsOk rp initSimState.positions :=
  ⟨fun _ => by simp [countActiveFor, initSimState], by simp [countActive, initSimState]⟩

theorem sim_session_caps (env : SimEnv) (rp : RiskParams) :
    simCapsOk rp (sim_session env rp).positions := by
  unfold sim_session
  exact foldl_preserve (fun st0 => simCapsOk rp st0.positions) _ simTimes
    (fun t _ st0 h0 => sim_step_caps env rp t st0 h0) initSimState (initSimState_caps rp)

theorem sim_run_caps (env : SimEnv) (rp : RiskParams) :
    simCapsOk rp (sim_run env rp).positions := by
  unfold sim_run
  split
  · exact close_all_caps env rp _ (sim_session_caps env rp)
  · exact initSimState_caps rp

theorem engine_check_entry_caps (rp : RiskParams) (perf : Option ℕ)
    (cap psp : ℚ) (db : List Position) (stock : String) (s : Indicators) (nid : ℕ)
    (ok : Bool) (h : dbCapsOk rp db) :
    dbCapsOk rp (engine_check_entry_signals rp perf cap psp db stock s nid ok) := by
  unfold engine_check_entry_signals
  by_cases h6 :
      (db.filter fun p => p.stock_symbol == stock && p.status == PositionStatus.ACTIVE).length ≥ 6
  · rw [if_pos h6]; exact h
  · rw [if_neg h6]
    by_cases hst : should_trade rp perf
        (db.filter fun p => p.status == PositionStatus.ACTIVE).length 0 cap = true
    · rw [if_neg (by rw [hst]; decide)]
      split
      · exact h
      · split
        · exact h
        · split
          · exact h
          · dsimp only
            split
            · exact h
            · split
              · constructor
                · intro stock2
                  unfold dbActiveFor
                  rw [List.filter_append, List.length_append]
                  by_cases hs2 : stock2 = stock
                  · rw [hs2]
                    simp
                    omega
                  · have hbe : (stock == stock2) = false :=
                      beq_eq_false_iff_ne.mpr fun hx => hs2 hx.symm
                    simp [hbe]
                    have hb2 := h.1 stock2
                    unfold dbActiveFor at hb2
                    omega
                · unfold dbActive
                  rw [List.filter_append, List.length_append]
                  have hlt := should_trade_cap_lt rp perf _ 0 cap hst
                  simp
                  have htot := h.2
                  unfold dbActive at htot
                  omega
              · exact h
    · have hst' : should_trade rp perf
          (db.filter fun p => p.status == PositionStatus.ACTIVE).length 0 cap = false := by
        cases hb : should_trade rp perf
            (db.filter fun p => p.status == PositionStatus.ACTIVE).length 0 cap
        · rfl
        · exact absurd hb hst
      rw [if_pos (by rw [hst']; rfl)]
      exact h

/-- C7: in the simulator, the caps (at most 6 ACTIVE positions per stock
and at most the configured portfolio cap in total) hold initially and are
preserved by every elementary transition (exit processing, entry
processing, end-of-day closing), hence hold throughout every run and in
its final ledger; the live entry path preserves the same caps over the
positions table, since both entry paths check both caps before creating a
position. -/
theorem claim_C7 (rp : RiskParams) :
    simCapsOk rp initSimState.positions ∧
    (∀ (env : SimEnv) (t : ℕ) (stock : String) (st : SimState),
      simCapsOk rp st.positions →
        simCapsOk rp (process_exits_at_time env t stock st).positions) ∧
    (∀ (env : SimEnv) (t : ℕ) (stock : String) (st : SimState),
      simCapsOk rp st.positions →
        simCapsOk rp (process_entries_at_time env rp t stock st).positions) ∧
    (∀ (env : SimEnv) (st : SimState),
      simCapsOk rp st.positions → simCapsOk rp (close_all_positions env st).positions) ∧
    (∀ env : SimEnv, simCapsOk rp (sim_run env rp).positions) ∧
    (∀ (perf : Option ℕ) (cap psp : ℚ) (db : List Position) (stock : String)
      (s : Indicators) (nid : ℕ) (ok : Bool),
      dbCapsOk rp db →
        dbCapsOk rp (engine_check_entry_signals rp perf cap psp db stock s nid ok)) :=
  ⟨initSimState_caps rp,
   fun env t stock st h => process_exits_caps env rp t stock st h,
   fun env t stock st h => process_entries_caps env rp t stock st h,
   fun env st h => close_all_caps env rp st h,
   fun env => sim_run_caps env rp,
   fun perf cap psp db stock s nid ok h =>
     engine_check_entry_caps rp perf cap psp db stock s nid ok h⟩

/-- C7 witness: one entry-processing step on the deterministic scenario at
the cutoff time keeps both caps satisfied. -/
theorem claim_C7_witness :
    simCapsOk rpDet (process_entries_at_time e1det rpDet 925 "RELIANCE" initSimState).positions :=
  (claim_C7 rpDet).2.2.1 e1det 925 "RELIANCE" initSimState
    ⟨fun s => by simp [countActiveFor, initSimState], by simp [countActive, initSimState]⟩

theorem posRunOk_exit_step (env : SimEnv) (t : ℕ) (s : Indicators) (stock : String)
    (p : SimPosition) (h : posRunOk env p) : posRunOk env (sim_exit_step t s stock p) := by
  rcases sim_exit_step_cases t s stock p with heq | ⟨hstock, hcl, hep, het, her⟩
  · rwa [heq]
  · right
    exact ⟨hcl, hep, het, her⟩

theorem process_exits_runok (env : SimEnv) (t : ℕ) (stock : String) (st : SimState)
    (h : ∀ p ∈ st.positions, posRunOk env p) :
    ∀ p ∈ (process_exits_at_time env t stock st).positions, posRunOk env p := by
  unfold process_exits_at_time
  cases hgi : get_indicators_for_stock env stock t with
  | none => exact h
  | some s =>
    dsimp only
    intro p hp
    rw [List.mem_map] at hp
    obtain ⟨q, hq, rfl⟩ := hp
    exact posRunOk_exit_step env t s stock q (h q hq)

theorem get_indicators_nonempty (env : SimEnv) (stock : String) (t : ℕ) (s : Indicators)
    (hgi : get_indicators_for_stock env stock t = some s) (ht : t ≤ simEndTime) :
    ((getHist env stock).filter fun c => decide (c.timestamp ≤ simEndTime)) ≠ [] := by
  unfold get_indicators_for_stock at hgi
  by_cases hlen : ((getHist env stock).filter fun c => decide (c.timestamp ≤ t)).length < 52
  · rw [if_pos hlen] at hgi
    cases hgi
  · push_neg at hlen
    have hne : ((getHist env stock).filter fun c => decide (c.timestamp ≤ t)) ≠ [] := by
      intro hnil
      rw [hnil] at hlen
      simp at hlen
    obtain ⟨c, hc⟩ := List.exists_mem_of_ne_nil _ hne
    have hmem := List.mem_filter.mp hc
    intro hnil
    have hcm : c ∈ (getHist env stock).filter fun c => decide (c.timestamp ≤ simEndTime) := by
      rw [List.mem_filter]
      exact ⟨hmem.1, decide_eq_true (le_trans (of_decide_eq_true hmem.2) ht)⟩
    rw [hnil] at hcm
    exact absurd hcm (List.not_mem_nil c)

theorem sim_check_entry_runok (env : SimEnv) (rp : RiskParams) (t : ℕ) (stock : String)
    (s : Indicators) (st : SimState)
    (hne : ((getHist env stock).filter fun c => decide (c.timestamp ≤ simEndTime)) ≠ [])
    (h : ∀ p ∈ st.positions, posRunOk env p) :
    ∀ p ∈ (sim_check_entry env rp t stock s st).positions, posRunOk env p := by
  unfold sim_check_entry
  by_cases h6 :
      (st.positions.filter fun p => p.stock == stock && p.status == "ACTIVE").length ≥ 6
  · rw [if_pos h6]; exact h
  · rw [if_neg h6]
    by_cases hst : (!should_trade rp env.perf_consecutive_losses
        (st.positions.filter fun p => p.status == "ACTIVE").length 0
        env.initial_capital) = true
    · rw [if_pos hst]; exact h
    · rw [if_neg hst]
      split
      · exact h
      · dsimp only
        split
        · exact h
        · split
          · exact h
          · split
            · exact h
            · intro p hp
              rw [List.mem_append] at hp
              rcases hp with hp | hp
              · exact h p hp
              · rw [List.mem_singleton] at hp
                subst hp
                left
                exact ⟨rfl, hne⟩

theorem process_entries_runok (env : SimEnv) (rp : RiskParams) (t : ℕ) (stock : String)
    (ht : t ≤ simEndTime) (st : SimState) (h : ∀ p ∈ st.positions, posRunOk env p) :
    ∀ p ∈ (process_entries_at_time env rp t stock st).positions, posRunOk env p := by
  unfold process_entries_at_time
  cases hgi : get_indicators_for_stock env stock t with
  | none => exact h
  | some s =>
    exact sim_check_entry_runok env rp t stock s st
      (get_indicators_nonempty env stock t s hgi ht) h

theorem sim_step_runok (env : SimEnv) (rp : RiskParams) (t : ℕ) (ht : t ≤ simEndTime)
    (st : SimState) (h : ∀ p ∈ st.positions, posRunOk env p) :
    ∀ p ∈ (sim_step env rp t st).positions, posRunOk env p := by
  unfold sim_step
  dsimp only
  apply foldl_preserve (fun st0 => ∀ p ∈ st0.positions, posRunOk env p) _ env.stocks
    (fun stock _ st0 h0 => process_entries_runok env rp t stock ht st0 h0)
  apply foldl_preserve (fun st0 => ∀ p ∈ st0.positions, posRunOk env p) _ env.stocks
    (fun stock _ st0 h0 => process_exits_runok env t stock st0 h0)
  exact h

theorem simTimes_le : ∀ t ∈ simTimes, t ≤ simEndTime := by decide

theorem sim_session_runok (env : SimEnv) (rp : RiskParams) :
    ∀ p ∈ (sim_session env rp).positions, posRunOk env p := by
  unfold sim_session
  refine foldl_preserve (fun st0 => ∀ p ∈ st0.positions, posRunOk env p) _ simTimes
    (fun t ht st0 h0 => sim_step_runok env rp t (simTimes_le t ht) st0 h0) initSimState ?_
  intro p hp
  simp [initSimState] at hp

theorem close_all_runok (env : SimEnv) (st : SimState)
    (h : ∀ p ∈ st.positions, posRunOk env p) :
    ∀ p ∈ (close_all_positions env st).positions, posClosedOk p := by
  unfold close_all_positions
  dsimp only
  intro p hp
  rw [List.mem_map] at hp
  obtain ⟨q, hq, rfl⟩ := hp
  rcases h q hq with ⟨hact, _⟩ | hclosed
  · unfold sim_close_position_eod
    rw [if_pos (show (q.status == "ACTIVE") = true by rw [hact]; rfl)]
    exact ⟨rfl, rfl, rfl, rfl⟩
  · unfold sim_close_position_eod
    rw [if_neg (by rw [hclosed.1]; decide)]
    exact hclosed

theorem sim_close_eod_active (env : SimEnv) (p : SimPosition) (hact : p.status = "ACTIVE")
    (hne : ((getHist env p.stock).filter fun c => decide (c.timestamp ≤ simEndTime)) ≠ []) :
    (sim_close_position_eod env p).exit_reason = some "EOD" ∧
    (sim_close_position_eod env p).exit_time = some simEndTime ∧
    (sim_close_position_eod env p).exit_price =
      last_candle_close
        ((getHist env p.stock).filter fun c => decide (c.timestamp ≤ simEndTime)) := by
  unfold sim_close_position_eod
  rw [if_pos (show (p.status == "ACTIVE") = true by rw [hact]; rfl)]
  refine ⟨rfl, rfl, ?_⟩
  dsimp only
  unfold sim_eod_exit_price
  cases hlcc : last_candle_close
      ((getHist env p.stock).filter fun c => decide (c.timestamp ≤ simEndTime)) with
  | none =>
    exfalso
    unfold last_candle_close at hlcc
    cases hv : (getHist env p.stock).filter fun c => decide (c.timestamp ≤ simEndTime) with
    | nil => exact absurd hv hne
    | cons a as =>
      rw [hv] at hlcc
      cases hlcc
  | some v =>
    simp only [hlcc]

/-- C9: after the end-of-day closing step of a simulation run, every ledger
position is CLOSED with populated exit price, exit time and exit reason;
every position still ACTIVE after the session loop belongs to a stock with
candles at or before the cutoff, and the end-of-day closing prices such a
position at the close of the last available candle at or before the cutoff
with reason EOD and exit time the cutoff. -/
theorem claim_C9 (env : SimEnv) (rp : RiskParams) :
    (∀ p ∈ (sim_run env rp).positions, posClosedOk p) ∧
    (∀ p ∈ (sim_session env rp).positions, p.status = "ACTIVE" →
      ((getHist env p.stock).filter fun c => decide (c.timestamp ≤ simEndTime)) ≠ []) ∧
    (∀ p : SimPosition, p.status = "ACTIVE" →
      ((getHist env p.stock).filter fun c => decide (c.timestamp ≤ simEndTime)) ≠ [] →
      (sim_close_position_eod env p).exit_reason = some "EOD" ∧
      (sim_close_position_eod env p).exit_time = some simEndTime ∧
      (sim_close_position_eod env p).exit_price =
        last_candle_close
          ((getHist env p.stock).filter fun c => decide (c.timestamp ≤ simEndTime))) := by
  refine ⟨?_, ?_, ?_⟩
  · unfold sim_run
    split
    · exact close_all_runok env _ (sim_session_runok env rp)
    · intro p hp
      simp [initSimState] at hp
  · intro p hp hact
    rcases sim_session_runok env rp p hp with ⟨_, hc⟩ | hcl
    · exact hc
    · exact absurd (hcl.1.symm.trans hact) (by decide)
  · intro p hact hne
    exact sim_close_eod_active env p hact hne

/-- C9 witness: the end-of-day close of a concrete ACTIVE position in the
deterministic scenario exits at the close of the last candle at or before
the cutoff with reason EOD. -/
theorem claim_C9_witness :
    (sim_close_position_eod e1det simC9pos).exit_reason = some "EOD" ∧
    (sim_close_position_eod e1det simC9pos).exit_time = some simEndTime ∧
    (sim_close_position_eod e1det simC9pos).exit_price =
      last_candle_close
        ((getHist e1det simC9pos.stock).filter fun c => decide (c.timestamp ≤ simEndTime)) :=
  (claim_C9 e1det rpDet).2.2 simC9pos (by decide) (by decide)

theorem foldl_ext_eq {α β : Type} (f g : β → α → β) (l : List α)
    (h : ∀ b a, f b a = g b a) : ∀ b, l.foldl f b = l.foldl g b := by
  induction l with
  | nil => intro b; rfl
  | cons a rest ih =>
    intro b
    rw [List.foldl_cons, List.foldl_cons, h b a, ih]

theorem should_trade_drawdown_free (mp : ℕ) (d₁ d₂ : ℚ) (cb : ℕ) (perf : Option ℕ)
    (n : ℕ) (c : ℚ) :
    should_trade ⟨mp, d₁, cb⟩ perf n 0 c = should_trade ⟨mp, d₂, cb⟩ perf n 0 c := by
  unfold should_trade
  rw [if_neg (by norm_num : ¬ (0 : ℚ) < 0), if_neg (by norm_num : ¬ (0 : ℚ) < 0)]
  rw [show check_position_limit ⟨mp, d₁, cb⟩ n = check_position_limit ⟨mp, d₂, cb⟩ n
      from rfl,
    show check_circuit_breaker ⟨mp, d₁, cb⟩ perf = check_circuit_breaker ⟨mp, d₂, cb⟩ perf
      from rfl]

theorem should_trade_zero_pnl (rp : RiskParams) (perf : Option ℕ) (n : ℕ) (c : ℚ) :
    should_trade rp perf n 0 c =
      (check_position_limit rp n && check_circuit_breaker rp perf) := by
  unfold should_trade
  rw [if_neg (by norm_num : ¬ (0 : ℚ) < 0)]
  cases h1 : check_position_limit rp n
  · simp
  · cases h2 : check_circuit_breaker rp perf <;> simp

theorem sim_check_entry_drawdown (env : SimEnv) (t : ℕ) (stock : String) (s : Indicators)
    (st : SimState) (mp cb : ℕ) (d₁ d₂ : ℚ) :
    sim_check_entry env ⟨mp, d₁, cb⟩ t stock s st =
      sim_check_entry env ⟨mp, d₂, cb⟩ t stock s st := by
  unfold sim_check_entry
  dsimp only
  rw [should_trade_drawdown_free mp d₁ d₂ cb env.perf_consecutive_losses _
    env.initial_capital]

theorem process_entries_drawdown (env : SimEnv) (t : ℕ) (stock : String) (st : SimState)
    (mp cb : ℕ) (d₁ d₂ : ℚ) :
    process_entries_at_time env ⟨mp, d₁, cb⟩ t stock st =
      process_entries_at_time env ⟨mp, d₂, cb⟩ t stock st := by
  unfold process_entries_at_time
  cases get_indicators_for_stock env stock t with
  | none => rfl
  | some s => exact sim_check_entry_drawdown env t stock s st mp cb d₁ d₂

theorem sim_step_drawdown (env : SimEnv) (t : ℕ) (st : SimState) (mp cb : ℕ)
    (d₁ d₂ : ℚ) :
    sim_step env ⟨mp, d₁, cb⟩ t st = sim_step env ⟨mp, d₂, cb⟩ t st := by
  unfold sim_step
  exact foldl_ext_eq _ _ env.stocks
    (fun b a => process_entries_drawdown env t a b mp cb d₁ d₂) _

theorem sim_run_drawdown (env : SimEnv) (mp cb : ℕ) (d₁ d₂ : ℚ) :
    sim_run env ⟨mp, d₁, cb⟩ = sim_run env ⟨mp, d₂, cb⟩ := by
  unfold sim_run
  have hsession : sim_session env ⟨mp, d₁, cb⟩ = sim_session env ⟨mp, d₂, cb⟩ := by
    unfold sim_session
    exact foldl_ext_eq _ _ simTimes
      (fun b a => sim_step_drawdown env a b mp cb d₁ d₂) initSimState
  rw [hsession]

theorem engine_entry_drawdown (perf : Option ℕ) (cap psp : ℚ) (db : List Position)
    (stock : String) (s : Indicators) (nid : ℕ) (ok : Bool) (mp cb : ℕ) (d₁ d₂ : ℚ) :
    engine_check_entry_signals ⟨mp, d₁, cb⟩ perf cap psp db stock s nid ok =
      engine_check_entry_signals ⟨mp, d₂, cb⟩ perf cap psp db stock s nid ok := by
  unfold engine_check_entry_signals
  dsimp only
  rw [should_trade_drawdown_free mp d₁ d₂ cb perf _ cap]

/-- C10: both entry paths invoke the risk gate with a constant portfolio P&L
of 0.0, so the gate reduces to the position cap and the circuit breaker,
and neither the simulated run ledger nor the live entry decision depends on
the daily drawdown limit parameter in any way — an 18 percent daily
drawdown can never block an entry on these paths. -/
theorem claim_C10 :
    (∀ (rp : RiskParams) (perf : Option ℕ) (n : ℕ) (c : ℚ),
      should_trade rp perf n 0 c =
        (check_position_limit rp n && check_circuit_breaker rp perf)) ∧
    (∀ (env : SimEnv) (mp cb : ℕ) (d₁ d₂ : ℚ),
      sim_run env ⟨mp, d₁, cb⟩ = sim_run env ⟨mp, d₂, cb⟩) ∧
    (∀ (perf : Option ℕ) (cap psp : ℚ) (db : List Position) (stock : String)
      (s : Indicators) (nid : ℕ) (ok : Bool) (mp cb : ℕ) (d₁ d₂ : ℚ),
      engine_check_entry_signals ⟨mp, d₁, cb⟩ perf cap psp db stock s nid ok =
        engine_check_entry_signals ⟨mp, d₂, cb⟩ perf cap psp db stock s nid ok) :=
  ⟨fun rp perf n c => should_trade_zero_pnl rp perf n c,
   fun env mp cb d₁ d₂ => sim_run_drawdown env mp cb d₁ d₂,
   fun perf cap psp db stock s nid ok mp cb d₁ d₂ =>
     engine_entry_drawdown perf cap psp db stock s nid ok mp cb d₁ d₂⟩

set_option maxRecDepth 100000

set_option maxHeartbeats 4000000

/-- C8 counterexample: two simulator runs with identical date, stocks,
capital and historical data but a different persisted Performance row (the
consecutive-loss counter read through the database shared with the live
path) produce different trade ledgers: the first run records an entry and
its end-of-day exit, the second records nothing because the circuit breaker
is open. -/
theorem claim_C8_counterexample :
    e1det.stocks = e2det.stocks ∧ e1det.initial_capital = e2det.initial_capital ∧
    e1det.history = e2det.history ∧
    sim_run e1det rpDet ≠ sim_run e2det rpDet ∧
    (sim_run e1det rpDet).trades.length = 2 ∧
    (sim_run e2det rpDet).trades.length = 0 :=
  ⟨rfl, rfl, rfl, by decide, by decide, by decide⟩

/-- C8 (amended): a simulation run is a pure function of the date, stocks,
capital, the historical data served by the data source AND the persisted
daily Performance state — fixing all of these makes two runs produce
identical trade and position ledgers; the Performance row is state shared
with the live path, so a fresh simulator instance does observe residual
state through it. -/
theorem claim_C8 (rp : RiskParams) (e₁ e₂ : SimEnv)
    (hs : e₁.stocks = e₂.stocks) (hc : e₁.initial_capital = e₂.initial_capital)
    (hh : e₁.history = e₂.history)
    (hp : e₁.perf_consecutive_losses = e₂.perf_consecutive_losses) :
    sim_run e₁ rp = sim_run e₂ rp := by
  have he : e₁ = e₂ := by
    cases e₁
    cases e₂
    simp_all
  rw [he]

/-- C8 witness: the amended determinism applied at the concrete scenario. -/
theorem claim_C8_witness : sim_run e1det rpDet = sim_run e1det rpDet :=
  claim_C8 rpDet e1det e1det rfl rfl rfl rfl

end Trading
